import Mathlib

/-
Shallow embedding of src/lib.rs of the macvtap-rs crate.

The crate wraps a raw file descriptor (an i32 obtained from the external C
routines create_tap / create_macvtap) in a struct Iface and exposes
creation, as_raw_fd, into_raw_fd, close, Read, Write and Drop.

Modelling conventions:
- The two external creation routines are an oracle (structure Externals):
  arbitrary functions from the name bytes and the mtu to the returned c_int.
- The operating system is an oracle (structure Os) giving the return value
  of each libc call (close, read, write) and the current errno.
- Machine integers are modelled as Int (c_int, isize) and Nat (usize,
  buffer lengths); no arithmetic in the source can overflow, so no
  wrap-around modelling is needed.
- Syscalls actually issued by an operation are recorded in a List OsOp
  trace returned next to the ordinary result, so that claims about which
  OS operations happen (and how many times) are statable.
- A Rust panic (a failed assert or a failed unwrap) is a distinct
  constructor of the result type: it is not an ordinary error value.
-/

namespace Macvtap

/-- An OS-level operation issued by the handle: a close, read or write
syscall, recorded with the descriptor it acts on (and the requested byte
count for read and write). -/
inductive OsOp : Type
  | close (fd : Int)
  | readSys (fd : Int) (len : Nat)
  | writeSys (fd : Int) (len : Nat)
  deriving DecidableEq, Repr

/-- Error kind of std::io::Error as used by the source; the source only
ever constructs ErrorKind::Other. -/
inductive ErrKind : Type
  | Other
  deriving DecidableEq, Repr

/-- The std::io::Error values the source can produce: Error::new(kind, msg)
or Error::last_os_error() (which captures errno). -/
inductive IoErr : Type
  | custom (kind : ErrKind) (msg : String)
  | os (errno : Int)
  deriving DecidableEq, Repr

/-- The Mode enum of src/lib.rs. -/
inductive Mode : Type
  | Tun
  | Tap
  | MacvTap
  deriving DecidableEq, Repr

/-- The Iface struct of src/lib.rs: a single i32 field fd. -/
structure Iface : Type where
  fd : Int
  deriving DecidableEq, Repr

/-- Oracle for the two external C creation routines declared in the extern
block of src/lib.rs. Each takes the interface name (as its byte string) and
the mtu and returns a c_int. The 256-byte out-buffer for the device name is
write-only from the point of view of the source and does not influence the
control flow, so it is not modelled. -/
structure Externals : Type where
  create_tap : List Nat → Nat → Int
  create_macvtap : List Nat → Nat → Int

/-- Oracle for the operating system: return values of the libc close, read
and write calls on a given descriptor, and the current errno observed by
Error::last_os_error. -/
structure Os : Type where
  closeRet : Int → Int
  readRet : Int → Nat → Int
  writeRet : Int → Nat → Int
  errno : Int

/-- Result of Iface::new. CString::new(ifname).unwrap() panics when the
name holds an embedded null byte, so a panic outcome is possible besides
Err and Ok. -/
inductive NewResult : Type
  | panicked
  | err (e : IoErr)
  | ok (iface : Iface)
  deriving DecidableEq, Repr

/-- True exactly on the err constructor of NewResult. -/
def NewResult.isErr : NewResult → Bool
  | .err _ => true
  | _ => false

/-- Full observable outcome of one call to Iface::new: the returned value
(or panic) together with how many times each external creation routine was
invoked during the call. -/
structure NewTrace : Type where
  result : NewResult
  tapCalls : Nat
  macvtapCalls : Nat
  deriving DecidableEq, Repr

/-- Iface::new of src/lib.rs.

Source shape: let t = CString::new(ifname).unwrap() — CString::new fails
exactly when ifname holds an embedded null byte (byte value 0), and the
unwrap then panics before anything else happens. Otherwise the match on
mode computes fd: Mode::Tap calls create_tap, Mode::MacvTap calls
create_macvtap, and the wildcard arm (reached by Mode::Tun) yields -1
without any external call. Then: if fd < 0 the function returns
Err(Error::new(ErrorKind::Other, "unable to create tap")), else
Ok(Self { fd }). The name is modelled as its byte string (a Rust str can
contain the null character, encoded as byte 0). -/
def Iface.new (ext : Externals) (ifname : List Nat) (mode : Mode) (mtu : Nat) : NewTrace :=
  if (0 : Nat) ∈ ifname then
    { result := .panicked, tapCalls := 0, macvtapCalls := 0 }
  else
    match mode with
    | .Tap =>
      let fd := ext.create_tap ifname mtu
      if fd < 0 then
        { result := .err (.custom .Other "unable to create tap"), tapCalls := 1, macvtapCalls := 0 }
      else
        { result := .ok { fd := fd }, tapCalls := 1, macvtapCalls := 0 }
    | .MacvTap =>
      let fd := ext.create_macvtap ifname mtu
      if fd < 0 then
        { result := .err (.custom .Other "unable to create tap"), tapCalls := 0, macvtapCalls := 1 }
      else
        { result := .ok { fd := fd }, tapCalls := 0, macvtapCalls := 1 }
    | .Tun =>
      let fd : Int := -1
      if fd < 0 then
        { result := .err (.custom .Other "unable to create tap"), tapCalls := 0, macvtapCalls := 0 }
      else
        { result := .ok { fd := fd }, tapCalls := 0, macvtapCalls := 0 }

/-- Iface::close of src/lib.rs: calls libc::close(self.fd) and returns its
raw i32 result unchanged (return type i32, not io::Result). The trace
records the single close syscall issued. -/
def Iface.close (os : Os) (self : Iface) : Int × List OsOp :=
  (os.closeRet self.fd, [.close self.fd])

/-- Drop for Iface of src/lib.rs: let _ = self.close(); — invokes close and
discards its integer result, so only the syscall trace remains observable. -/
def Iface.dropGlue (os : Os) (self : Iface) : List OsOp :=
  (Iface.close os self).2

/-- AsRawFd for Iface of src/lib.rs: returns self.fd, borrowing the handle. -/
def Iface.as_raw_fd (self : Iface) : Int :=
  self.fd

/-- IntoRawFd for Iface of src/lib.rs: fn into_raw_fd(self) -> RawFd
\x7b self.fd \x7d. The body returns the copied descriptor value, but because
Iface implements Drop and the body does not call mem::forget (or wrap self
in ManuallyDrop), the compiler runs the drop glue on self when the call
returns, which invokes Drop::drop and hence close. The returned pair is
the descriptor value together with the syscall trace of the call. -/
def Iface.into_raw_fd (os : Os) (self : Iface) : Int × List OsOp :=
  (self.fd, Iface.dropGlue os self)

/-- Largest buffer length accepted by the read and write impls:
isize::max_value() as usize on the 64-bit targets the crate supports,
i.e. 2 ^ 63 - 1. -/
def isizeMaxValue : Nat := 2 ^ 63 - 1

/-- Result of one read or write call: a panic (failed assert), an error, or
the byte count. -/
inductive IoResult : Type
  | panicked
  | err (e : IoErr)
  | ok (n : Nat)
  deriving DecidableEq, Repr

/-- Read for Iface of src/lib.rs (the exclusive, &mut self form). First
assert!(buf.len() <= isize::max_value() as usize); a failing assert panics
before any syscall. Then one libc::read(self.fd, buf, buf.len()): a
negative return x becomes Err(Error::last_os_error()), any other return x
becomes Ok(x as usize). The body never assigns to self.fd, so the handle
is returned unchanged; the trace records the single read syscall when one
is issued. The buffer is modelled by its length, the only thing the
control flow depends on. -/
def Iface.read (os : Os) (self : Iface) (bufLen : Nat) : IoResult × Iface × List OsOp :=
  if bufLen ≤ isizeMaxValue then
    let x := os.readRet self.fd bufLen
    if x < 0 then
      (.err (.os os.errno), self, [.readSys self.fd bufLen])
    else
      (.ok x.toNat, self, [.readSys self.fd bufLen])
  else
    (.panicked, self, [])

/-- Read for &Iface of src/lib.rs (the shared-reference form); its body is
textually identical to the exclusive form. -/
def IfaceRef.read (os : Os) (self : Iface) (bufLen : Nat) : IoResult × Iface × List OsOp :=
  if bufLen ≤ isizeMaxValue then
    let x := os.readRet self.fd bufLen
    if x < 0 then
      (.err (.os os.errno), self, [.readSys self.fd bufLen])
    else
      (.ok x.toNat, self, [.readSys self.fd bufLen])
  else
    (.panicked, self, [])

/-- Write for Iface of src/lib.rs (the exclusive form): same shape as read
with libc::write. -/
def Iface.write (os : Os) (self : Iface) (bufLen : Nat) : IoResult × Iface × List OsOp :=
  if bufLen ≤ isizeMaxValue then
    let x := os.writeRet self.fd bufLen
    if x < 0 then
      (.err (.os os.errno), self, [.writeSys self.fd bufLen])
    else
      (.ok x.toNat, self, [.writeSys self.fd bufLen])
  else
    (.panicked, self, [])

/-- Write for &Iface of src/lib.rs (the shared-reference form); body
textually identical to the exclusive form. -/
def IfaceRef.write (os : Os) (self : Iface) (bufLen : Nat) : IoResult × Iface × List OsOp :=
  if bufLen ≤ isizeMaxValue then
    let x := os.writeRet self.fd bufLen
    if x < 0 then
      (.err (.os os.errno), self, [.writeSys self.fd bufLen])
    else
      (.ok x.toNat, self, [.writeSys self.fd bufLen])
  else
    (.panicked, self, [])

/-- Flush of Write for Iface of src/lib.rs: fn flush returns Ok(()) and
issues no syscall. -/
def Iface.flush (_self : Iface) : Except IoErr Unit × List OsOp :=
  (.ok (), [])

/-- Flush of Write for &Iface of src/lib.rs: identical to the exclusive
form. -/
def IfaceRef.flush (_self : Iface) : Except IoErr Unit × List OsOp :=
  (.ok (), [])

/-- Concrete Os oracle used by closed evaluation theorems: close returns 0,
read and write return 0, errno is 9. -/
def osStub : Os :=
  { closeRet := fun _ => 0, readRet := fun _ _ => 0, writeRet := fun _ _ => 0, errno := 9 }

/-- Concrete Externals oracle whose routines always fail (return -1). -/
def extFail : Externals :=
  { create_tap := fun _ _ => -1, create_macvtap := fun _ _ => -1 }

/-- Concrete Externals oracle: create_tap returns descriptor 7,
create_macvtap returns descriptor 3. -/
def extOk : Externals :=
  { create_tap := fun _ _ => 7, create_macvtap := fun _ _ => 3 }

/-- Concrete Externals oracle whose routines return exactly 0. -/
def extZero : Externals :=
  { create_tap := fun _ _ => 0, create_macvtap := fun _ _ => 0 }

/-- Evaluating Iface.new on a name with an embedded null byte: the call
panics and calls no external routine; auxiliary lemma shared by several
developments below. -/
theorem new_null_panics (ext : Externals) (ifname : List Nat) (mode : Mode) (mtu : Nat)
    (h : (0 : Nat) ∈ ifname) :
    Iface.new ext ifname mode mtu =
      { result := .panicked, tapCalls := 0, macvtapCalls := 0 } := by
  unfold Iface.new
  simp [h]

/-- C1: the code violates the claim. Evaluating the embedding at the
failing input: consuming a handle that owns descriptor 7 via
IntoRawFd::into_raw_fd returns 7 but also issues a close syscall on
descriptor 7, because the drop glue of Iface runs on self when the call
returns (the body does not call mem::forget). The claim says the trace of
OS close operations is empty; it is [close 7]. -/
theorem c1_into_raw_fd_closes_descriptor :
    Iface.into_raw_fd osStub { fd := 7 } = (7, [OsOp.close 7]) ∧
    (Iface.into_raw_fd osStub { fd := 7 }).2 ≠ [] := by
  constructor
  · rfl
  · simp [Iface.into_raw_fd, Iface.dropGlue, Iface.close]

/-- C2 counterexample: at the concrete name [0] (a single embedded null
byte), Iface::new does not return an ordinary error value as the claim
states: it panics (CString::new(ifname).unwrap()). -/
theorem c2_null_name_counterexample :
    (Iface.new extOk [0] Mode.Tap 1500).result = NewResult.panicked ∧
    ((Iface.new extOk [0] Mode.Tap 1500).result).isErr = false := by
  constructor
  · rfl
  · rfl

/-- C2 amended: for every name containing an embedded null byte (and any
mode and mtu), Iface::new panics — via unwrap on the failed CString::new —
rather than returning an error value, and neither create_tap nor
create_macvtap is invoked for that call. -/
theorem c2_null_name_panics_no_external_call (ext : Externals) (ifname : List Nat)
    (mode : Mode) (mtu : Nat) (h : (0 : Nat) ∈ ifname) :
    (Iface.new ext ifname mode mtu).result = NewResult.panicked ∧
    (Iface.new ext ifname mode mtu).tapCalls = 0 ∧
    (Iface.new ext ifname mode mtu).macvtapCalls = 0 := by
  rw [new_null_panics ext ifname mode mtu h]
  exact ⟨rfl, rfl, rfl⟩

/-- C2 witness: the amended theorem applied at the concrete name [0]. -/
theorem c2_null_name_panics_witness :
    (0 : Nat) ∈ ([0] : List Nat) ∧
    ((Iface.new extOk [0] Mode.Tap 1500).result = NewResult.panicked ∧
      (Iface.new extOk [0] Mode.Tap 1500).tapCalls = 0 ∧
      (Iface.new extOk [0] Mode.Tap 1500).macvtapCalls = 0) :=
  ⟨by decide, c2_null_name_panics_no_external_call extOk [0] Mode.Tap 1500 (by decide)⟩

/-- C4: for every null-free name and every mtu, Iface::new with kind Tun
returns the creation error Error::new(ErrorKind::Other, "unable to create
tap") and invokes neither external creation routine. -/
theorem c4_tun_always_fails (ext : Externals) (ifname : List Nat) (mtu : Nat)
    (h : (0 : Nat) ∉ ifname) :
    Iface.new ext ifname Mode.Tun mtu =
      { result := .err (.custom .Other "unable to create tap"),
        tapCalls := 0, macvtapCalls := 0 } := by
  unfold Iface.new
  simp [h]

/-- C4 witness: the theorem applied at the concrete name [116], mtu 1500. -/
theorem c4_tun_always_fails_witness :
    (0 : Nat) ∉ ([116] : List Nat) ∧
    Iface.new extOk [116] Mode.Tun 1500 =
      { result := .err (.custom .Other "unable to create tap"),
        tapCalls := 0, macvtapCalls := 0 } :=
  ⟨by decide, c4_tun_always_fails extOk [116] 1500 (by decide)⟩

/-- Auxiliary evaluation of Iface.new on a null-free name with kind Tap:
create_tap is called once, create_macvtap never, and the outcome is
decided by the sign of the returned descriptor. -/
theorem new_tap_eq (ext : Externals) (ifname : List Nat) (mtu : Nat)
    (h : (0 : Nat) ∉ ifname) :
    Iface.new ext ifname Mode.Tap mtu =
      if ext.create_tap ifname mtu < 0 then
        { result := .err (.custom .Other "unable to create tap"),
          tapCalls := 1, macvtapCalls := 0 }
      else
        { result := .ok { fd := ext.create_tap ifname mtu },
          tapCalls := 1, macvtapCalls := 0 } := by
  unfold Iface.new
  simp [h]

/-- Auxiliary evaluation of Iface.new on a null-free name with kind
MacvTap: create_macvtap is called once, create_tap never. -/
theorem new_macvtap_eq (ext : Externals) (ifname : List Nat) (mtu : Nat)
    (h : (0 : Nat) ∉ ifname) :
    Iface.new ext ifname Mode.MacvTap mtu =
      if ext.create_macvtap ifname mtu < 0 then
        { result := .err (.custom .Other "unable to create tap"),
          tapCalls := 0, macvtapCalls := 1 }
      else
        { result := .ok { fd := ext.create_macvtap ifname mtu },
          tapCalls := 0, macvtapCalls := 1 } := by
  unfold Iface.new
  simp [h]

/-- C3: for every null-free name and every mtu, kind Tap invokes
create_tap exactly once and create_macvtap never, kind MacvTap the other
way round; a non-negative return makes new succeed with a handle owning
exactly that descriptor, a negative return makes new fail with the
creation error and no handle is produced. -/
theorem c3_dispatch_and_result (ext : Externals) (ifname : List Nat) (mtu : Nat)
    (h : (0 : Nat) ∉ ifname) :
    ((Iface.new ext ifname Mode.Tap mtu).tapCalls = 1 ∧
      (Iface.new ext ifname Mode.Tap mtu).macvtapCalls = 0) ∧
    ((Iface.new ext ifname Mode.MacvTap mtu).tapCalls = 0 ∧
      (Iface.new ext ifname Mode.MacvTap mtu).macvtapCalls = 1) ∧
    (0 ≤ ext.create_tap ifname mtu →
      (Iface.new ext ifname Mode.Tap mtu).result =
        NewResult.ok { fd := ext.create_tap ifname mtu }) ∧
    (ext.create_tap ifname mtu < 0 →
      (Iface.new ext ifname Mode.Tap mtu).result =
        NewResult.err (.custom .Other "unable to create tap")) ∧
    (0 ≤ ext.create_macvtap ifname mtu →
      (Iface.new ext ifname Mode.MacvTap mtu).result =
        NewResult.ok { fd := ext.create_macvtap ifname mtu }) ∧
    (ext.create_macvtap ifname mtu < 0 →
      (Iface.new ext ifname Mode.MacvTap mtu).result =
        NewResult.err (.custom .Other "unable to create tap")) := by
  have ht := new_tap_eq ext ifname mtu h
  have hm := new_macvtap_eq ext ifname mtu h
  refine ⟨?_, ?_, ?_, ?_, ?_, ?_⟩
  · rw [ht]; split <;> exact ⟨rfl, rfl⟩
  · rw [hm]; split <;> exact ⟨rfl, rfl⟩
  · intro hge; rw [ht, if_neg (not_lt.mpr hge)]
  · intro hlt; rw [ht, if_pos hlt]
  · intro hge; rw [hm, if_neg (not_lt.mpr hge)]
  · intro hlt; rw [hm, if_pos hlt]

/-- C3 witness: the theorem applied at name [116], mtu 1500, with external
routines returning descriptor 7 for tap; the success conjunct yields a
handle with descriptor 7. -/
theorem c3_dispatch_and_result_witness :
    (0 : Nat) ∉ ([116] : List Nat) ∧
    (Iface.new extOk [116] Mode.Tap 1500).result = NewResult.ok { fd := 7 } := by
  refine ⟨by decide, ?_⟩
  exact (c3_dispatch_and_result extOk [116] 1500 (by decide)).2.2.1 (by decide)

/-- C5: every buffer longer than isize max is rejected by the assert in all
four read and write impls: the call panics, no syscall is issued (empty
trace), and the handle is unchanged. -/
theorem c5_oversized_buffer_panics (os : Os) (self : Iface) (bufLen : Nat)
    (h : isizeMaxValue < bufLen) :
    Iface.read os self bufLen = (.panicked, self, []) ∧
    IfaceRef.read os self bufLen = (.panicked, self, []) ∧
    Iface.write os self bufLen = (.panicked, self, []) ∧
    IfaceRef.write os self bufLen = (.panicked, self, []) := by
  have h2 : ¬ bufLen ≤ isizeMaxValue := not_le.mpr h
  unfold Iface.read IfaceRef.read Iface.write IfaceRef.write
  simp [h2]

/-- C5 witness: the theorem applied at the concrete length 2 ^ 63, one
past the bound on a 64-bit target. -/
theorem c5_oversized_buffer_panics_witness :
    isizeMaxValue < 2 ^ 63 ∧
    (Iface.read osStub { fd := 5 } (2 ^ 63) = (.panicked, { fd := 5 }, []) ∧
      IfaceRef.read osStub { fd := 5 } (2 ^ 63) = (.panicked, { fd := 5 }, []) ∧
      Iface.write osStub { fd := 5 } (2 ^ 63) = (.panicked, { fd := 5 }, []) ∧
      IfaceRef.write osStub { fd := 5 } (2 ^ 63) = (.panicked, { fd := 5 }, [])) :=
  ⟨by decide, c5_oversized_buffer_panics osStub { fd := 5 } (2 ^ 63) (by decide)⟩

/-- Auxiliary evaluation of the exclusive read on an in-bounds buffer. -/
theorem read_eq (os : Os) (self : Iface) (bufLen : Nat) (h : bufLen ≤ isizeMaxValue) :
    Iface.read os self bufLen =
      if os.readRet self.fd bufLen < 0 then
        (.err (.os os.errno), self, [.readSys self.fd bufLen])
      else
        (.ok (os.readRet self.fd bufLen).toNat, self, [.readSys self.fd bufLen]) := by
  unfold Iface.read
  simp [h]

/-- Auxiliary evaluation of the exclusive write on an in-bounds buffer. -/
theorem write_eq (os : Os) (self : Iface) (bufLen : Nat) (h : bufLen ≤ isizeMaxValue) :
    Iface.write os self bufLen =
      if os.writeRet self.fd bufLen < 0 then
        (.err (.os os.errno), self, [.writeSys self.fd bufLen])
      else
        (.ok (os.writeRet self.fd bufLen).toNat, self, [.writeSys self.fd bufLen]) := by
  unfold Iface.write
  simp [h]

/-- C6: on an in-bounds buffer, read and write return the error carrying
errno exactly when the syscall returns a negative value; a non-negative
return x yields Ok with exactly x as the byte count (the Nat payload cast
back to Int equals the raw return), and a return of 0 yields Ok 0. -/
theorem c6_error_iff_negative_return (os : Os) (self : Iface) (bufLen : Nat)
    (h : bufLen ≤ isizeMaxValue) :
    ((Iface.read os self bufLen).1 = IoResult.err (IoErr.os os.errno) ↔
      os.readRet self.fd bufLen < 0) ∧
    (0 ≤ os.readRet self.fd bufLen →
      (Iface.read os self bufLen).1 = IoResult.ok (os.readRet self.fd bufLen).toNat ∧
      ((os.readRet self.fd bufLen).toNat : Int) = os.readRet self.fd bufLen) ∧
    (os.readRet self.fd bufLen = 0 → (Iface.read os self bufLen).1 = IoResult.ok 0) ∧
    ((Iface.write os self bufLen).1 = IoResult.err (IoErr.os os.errno) ↔
      os.writeRet self.fd bufLen < 0) ∧
    (0 ≤ os.writeRet self.fd bufLen →
      (Iface.write os self bufLen).1 = IoResult.ok (os.writeRet self.fd bufLen).toNat ∧
      ((os.writeRet self.fd bufLen).toNat : Int) = os.writeRet self.fd bufLen) ∧
    (os.writeRet self.fd bufLen = 0 → (Iface.write os self bufLen).1 = IoResult.ok 0) := by
  have hr := read_eq os self bufLen h
  have hw := write_eq os self bufLen h
  refine ⟨?_, ?_, ?_, ?_, ?_, ?_⟩
  · rw [hr]
    by_cases hx : os.readRet self.fd bufLen < 0 <;> simp [hx]
  · intro hge
    rw [hr, if_neg (not_lt.mpr hge)]
    exact ⟨rfl, Int.toNat_of_nonneg hge⟩
  · intro h0
    rw [hr, if_neg (not_lt.mpr (le_of_eq h0.symm)), h0]
    rfl
  · rw [hw]
    by_cases hx : os.writeRet self.fd bufLen < 0 <;> simp [hx]
  · intro hge
    rw [hw, if_neg (not_lt.mpr hge)]
    exact ⟨rfl, Int.toNat_of_nonneg hge⟩
  · intro h0
    rw [hw, if_neg (not_lt.mpr (le_of_eq h0.symm)), h0]
    rfl

/-- C6 witness: the theorem applied at buffer length 1504 with the stub OS
whose read syscall returns 0: the result is Ok 0, passed through. -/
theorem c6_error_iff_negative_return_witness :
    (1504 : Nat) ≤ isizeMaxValue ∧
    (Iface.read osStub { fd := 5 } 1504).1 = IoResult.ok 0 := by
  refine ⟨by decide, ?_⟩
  exact ((c6_error_iff_negative_return osStub { fd := 5 } 1504 (by decide)).2.1 (by decide)).1

/-- C7: read and write, in both forms and whether they succeed, fail or
panic, return the handle with its descriptor field unchanged, and
as_raw_fd returns that same descriptor value on every call. -/
theorem c7_descriptor_untouched (os : Os) (self : Iface) (bufLen : Nat) :
    (Iface.read os self bufLen).2.1 = self ∧
    (IfaceRef.read os self bufLen).2.1 = self ∧
    (Iface.write os self bufLen).2.1 = self ∧
    (IfaceRef.write os self bufLen).2.1 = self ∧
    Iface.as_raw_fd (Iface.read os self bufLen).2.1 = self.fd ∧
    Iface.as_raw_fd (IfaceRef.write os self bufLen).2.1 = self.fd ∧
    Iface.as_raw_fd self = self.fd := by
  have hr : (Iface.read os self bufLen).2.1 = self := by
    by_cases hb : bufLen ≤ isizeMaxValue
    · rw [read_eq os self bufLen hb]
      split <;> rfl
    · unfold Iface.read
      rw [if_neg hb]
  have hw : (Iface.write os self bufLen).2.1 = self := by
    by_cases hb : bufLen ≤ isizeMaxValue
    · rw [write_eq os self bufLen hb]
      split <;> rfl
    · unfold Iface.write
      rw [if_neg hb]
  have hrr : (IfaceRef.read os self bufLen).2.1 = self := by
    rw [show IfaceRef.read os self bufLen = Iface.read os self bufLen from rfl]
    exact hr
  have hwr : (IfaceRef.write os self bufLen).2.1 = self := by
    rw [show IfaceRef.write os self bufLen = Iface.write os self bufLen from rfl]
    exact hw
  exact ⟨hr, hrr, hw, hwr, by rw [hr]; exact rfl, by rw [hwr]; exact rfl, rfl⟩

/-- C10: every creation failure on a null-free name — the unwired kind Tun
or an external routine returning a negative value — yields the one error
value Error::new(ErrorKind::Other, "unable to create tap"), and an
external return of exactly 0 is on the success side: it produces a live
handle with descriptor 0. -/
theorem c10_single_error_value (ext : Externals) (ifname : List Nat) (mtu : Nat)
    (h : (0 : Nat) ∉ ifname) :
    (Iface.new ext ifname Mode.Tun mtu).result =
      NewResult.err (.custom .Other "unable to create tap") ∧
    (ext.create_tap ifname mtu < 0 →
      (Iface.new ext ifname Mode.Tap mtu).result =
        NewResult.err (.custom .Other "unable to create tap")) ∧
    (ext.create_macvtap ifname mtu < 0 →
      (Iface.new ext ifname Mode.MacvTap mtu).result =
        NewResult.err (.custom .Other "unable to create tap")) ∧
    (ext.create_tap ifname mtu = 0 →
      (Iface.new ext ifname Mode.Tap mtu).result = NewResult.ok { fd := 0 }) ∧
    (ext.create_macvtap ifname mtu = 0 →
      (Iface.new ext ifname Mode.MacvTap mtu).result = NewResult.ok { fd := 0 }) := by
  have ht := new_tap_eq ext ifname mtu h
  have hm := new_macvtap_eq ext ifname mtu h
  refine ⟨?_, ?_, ?_, ?_, ?_⟩
  · unfold Iface.new; simp [h]
  · intro hlt; rw [ht, if_pos hlt]
  · intro hlt; rw [hm, if_pos hlt]
  · intro h0
    rw [ht, if_neg (not_lt.mpr (le_of_eq h0.symm))]
    simp [h0]
  · intro h0
    rw [hm, if_neg (not_lt.mpr (le_of_eq h0.symm))]
    simp [h0]

/-- C10 witness: the theorem applied at name [116] with failing external
routines: the Tun conjunct gives the single error value, and with the
zero-returning oracle the success-at-zero conjunct applies. -/
theorem c10_single_error_value_witness :
    (0 : Nat) ∉ ([116] : List Nat) ∧
    (Iface.new extFail [116] Mode.Tun 1500).result =
      NewResult.err (.custom .Other "unable to create tap") ∧
    (Iface.new extZero [116] Mode.Tap 1500).result = NewResult.ok { fd := 0 } := by
  refine ⟨by decide, ?_, ?_⟩
  · exact (c10_single_error_value extFail [116] 1500 (by decide)).1
  · exact (c10_single_error_value extZero [116] 1500 (by decide)).2.2.2.1 (by decide)

/-- C8: every call to close issues exactly one OS close operation on the
owned descriptor and returns the raw OS status code as a plain integer
(not wrapped in IoErr), and the drop glue invokes close and discards its
integer result, keeping only the same single close operation. -/
theorem c8_close_exactly_once_raw_status (os : Os) (self : Iface) :
    Iface.close os self = (os.closeRet self.fd, [OsOp.close self.fd]) ∧
    Iface.dropGlue os self = [OsOp.close self.fd] ∧
    Iface.dropGlue os self = (Iface.close os self).2 :=
  ⟨rfl, rfl, rfl⟩

/-- C9: the shared-reference and exclusive-access forms of read, write and
flush are extensionally equal (same result, same handle, same syscall
trace), and flush issues no OS operation and always returns success in
both forms. -/
theorem c9_shared_and_exclusive_forms_equal (os : Os) (self : Iface) (bufLen : Nat) :
    Iface.read os self bufLen = IfaceRef.read os self bufLen ∧
    Iface.write os self bufLen = IfaceRef.write os self bufLen ∧
    Iface.flush self = IfaceRef.flush self ∧
    Iface.flush self = (Except.ok (), []) :=
  ⟨rfl, rfl, rfl, rfl⟩

end Macvtap
